import Mathlib

/-!
Shallow embedding of the reader subsystem of `libarchive-rust`
(`src/reader.rs`), a safe wrapper over the libarchive C engine.

The engine itself (the `ffi::archive_*` procedures) is an external opaque
collaborator; every engine response a code path inspects is therefore a
parameter of the embedded function (for the iterator, a function from the
number of engine calls already made to the engine's return code).  Raw
pointers are modelled as `Nat` identifiers.  Rust panics (the
`check_current` assertion) are modelled as the `Except` error channel of a
dedicated `EntryMisuse` type, distinct from the recoverable `ArchiveError`
channel, and `Drop` implementations are modelled by functions counting how
many times `archive_read_free` is invoked on teardown.
-/

/-! ## Engine return codes and file-type constants (from the `libarchive3_sys` collaborator) -/

def ARCHIVE_OK : Int := 0

def ARCHIVE_EOF : Int := 1

def ARCHIVE_RETRY : Int := -10

def ARCHIVE_WARN : Int := -20

def ARCHIVE_FATAL : Int := -30

def AE_IFREG : Int := 32768

def AE_IFLNK : Int := 40960

def AE_IFSOCK : Int := 49152

def AE_IFCHR : Int := 8192

def AE_IFDIR : Int := 16384

def AE_IFIFO : Int := 4096

/-! ## Error types -/

/-- Modelled from the spec: the error taxonomy of `error.rs` (not under
`src/`): `Sys` is the spec's EngineError(code, message), carrying the
engine's own diagnostic code and text; `Consumed` is the spec's
AlreadyConsumed, produced when a builder is reused after it has produced a
session.  Both variants are referenced by name in `src/reader.rs`
(`ArchiveError::Sys`, `ArchiveError::Consumed`). -/
inductive ArchiveError where
  | Sys (code : Int) (msg : String)
  | Consumed
deriving DecidableEq, Repr

/-- The distinct stale-handle failure class: the `assert!` in
`ArchiveEntry::check_current` panics with the message "ArchiveEntry can
only be used on current iterator item".  A panic is a separate channel
from `ArchiveError` / `io::Error`, which the embedding mirrors by using a
dedicated error type. -/
inductive EntryMisuse where
  | staleHandleUsed
deriving DecidableEq, Repr

/-- The kind of a `std::io::Error`; the reader only ever constructs
`ErrorKind::Other` (in `Read for ArchiveEntry`). -/
inductive IoErrorKind where
  | other
deriving DecidableEq, Repr

/-- A `std::io::Error` as constructed by `Read for ArchiveEntry`:
`io::Error::new(io::ErrorKind::Other, err)` wrapping the engine's
`ArchiveError`. -/
structure IoError where
  kind : IoErrorKind
  error : ArchiveError
deriving DecidableEq, Repr

/-- A `std::io::Error` as reported by the caller-supplied byte source
pulled by the stream callback: its display message (`e.to_string()`) and
its optional OS error number (`e.raw_os_error()`). -/
structure SourceIoError where
  msg : String
  osCode : Option Int
deriving DecidableEq, Repr

deriving instance DecidableEq for Except

/-! ## ByteSourceBridge: `Pipe` and `stream_read_callback` -/

/-- The `Pipe` bridge: owns the boxed byte source and an 8192-byte scratch
buffer.  The wrapped source's next read outcome (`self.reader.read(&mut
self.buffer[..])`) is the externally supplied `readerResult`. -/
structure Pipe where
  readerResult : Except SourceIoError Nat
  bufferLen : Nat
deriving DecidableEq, Repr

/-- `Pipe::new`: boxes the source and allocates the 8 KiB buffer. -/
def Pipe.new (r : Except SourceIoError Nat) : Pipe :=
  ⟨r, 8192⟩

/-- `Pipe::read_bytes`: reads from the wrapped source into the scratch
buffer, yielding the byte count or the source's I/O error. -/
def Pipe.read_bytes (p : Pipe) : Except SourceIoError Nat :=
  p.readerResult

/-- The observable effect of one `stream_read_callback` invocation:
whether `*buff` was pointed at the pipe's scratch buffer, the `ssize_t`
returned to the engine, and the `(errno, message)` recorded through
`archive_set_error` (none when no error was recorded). -/
structure StreamCallbackEffect where
  handedBuffer : Bool
  ret : Int
  engineError : Option (Int × String)
deriving DecidableEq, Repr

/-- `stream_read_callback`: sets `*buff` to the pipe's buffer, then asks
the pipe for bytes; on `Ok(size)` returns `size`, on `Err(e)` records
`e.raw_os_error().unwrap_or(0)` and `e.to_string()` via
`archive_set_error` and returns `-1`. -/
def stream_read_callback (p : Pipe) : StreamCallbackEffect :=
  match p.read_bytes with
  | Except.ok size => ⟨true, (size : Int), none⟩
  | Except.error e => ⟨true, -1, some (e.osCode.getD 0, e.msg)⟩

/-! ## ReaderHandle -/

/-- `ReaderHandle`: owns the live engine handle, a `ReaderEntryHandle`
(its raw entry pointer, `0` modelling `ptr::null_mut()`), and optionally
the boxed `Pipe` when opened from a stream. -/
structure ReaderHandle where
  handle : Nat
  entry : Nat
  hasPipe : Bool
deriving DecidableEq, Repr

/-- `ReaderHandle::new_file`: default entry handle, no pipe. -/
def ReaderHandle.new_file (h : Nat) : ReaderHandle :=
  ⟨h, 0, false⟩

/-- `ReaderHandle::new_stream`: default entry handle, owning the pipe. -/
def ReaderHandle.new_stream (h : Nat) : ReaderHandle :=
  ⟨h, 0, true⟩

/-- `ReaderHandle::next_header`: calls `archive_read_next_header`, whose
return code is `res` and whose out-parameter leaves `newEntry` in
`self.entry.handle`; returns `Some(&mut self.entry)` exactly when
`res == 0`, and `None` otherwise. -/
def ReaderHandle.next_header (res : Int) (newEntry : Nat) (r : ReaderHandle) :
    ReaderHandle × Option Nat :=
  let r' : ReaderHandle := ⟨r.handle, newEntry, r.hasPipe⟩
  if res = 0 then (r', some r'.entry) else (r', none)

/-- `Drop for ReaderHandle`: unconditionally calls `archive_read_free`
once on its engine handle. -/
def ReaderHandle.dropFrees (_ : ReaderHandle) : Nat := 1

/-! ## ArchiveEntry -/

/-- `ArchiveEntry`: the per-member view.  `handle` is the raw entry
pointer, `readerHandle` is the shared session's engine handle
(`self.reader.handle`), and `current` is the index recorded at
construction.  The shared `iterator_current` cell's value is passed to
each operation as the `token` argument. -/
structure ArchiveEntry where
  handle : Nat
  readerHandle : Nat
  current : Nat
deriving DecidableEq, Repr

/-- What the engine's entry accessors (`archive_entry_pathname`,
`archive_entry_size`, `archive_entry_filetype`) would report for the entry
currently loaded in the handle.  For `pathname`, `none` covers both a null
pointer and a non-UTF-8 name (the source maps both to `None`). -/
structure EngineEntryData where
  pathname : Option String
  size : Int
  filetype : Int
deriving DecidableEq, Repr

/-- The closed file-type classification (the source spells the last
variant `Unkown`). -/
inductive ArchiveEntryFiletype where
  | RegularFile
  | SymbolicLink
  | Socket
  | CharacterDevice
  | Directory
  | NamedPipe
  | Unkown
deriving DecidableEq, Repr

/-- The `match` on `ffi::archive_entry_filetype` in
`ArchiveEntry::filetype`. -/
def filetypeOfCode (c : Int) : ArchiveEntryFiletype :=
  if c = AE_IFREG then ArchiveEntryFiletype.RegularFile
  else if c = AE_IFLNK then ArchiveEntryFiletype.SymbolicLink
  else if c = AE_IFSOCK then ArchiveEntryFiletype.Socket
  else if c = AE_IFCHR then ArchiveEntryFiletype.CharacterDevice
  else if c = AE_IFDIR then ArchiveEntryFiletype.Directory
  else if c = AE_IFIFO then ArchiveEntryFiletype.NamedPipe
  else ArchiveEntryFiletype.Unkown

/-- `ArchiveEntry::is_current`: `self.iterator_current.get() ==
Some(self.current)`. -/
def ArchiveEntry.is_current (e : ArchiveEntry) (token : Option Nat) : Bool :=
  token = some e.current

/-- `ArchiveEntry::check_current`: `assert!(self.is_current(), ...)`; the
panic is the `staleHandleUsed` error channel. -/
def ArchiveEntry.check_current (e : ArchiveEntry) (token : Option Nat) :
    Except EntryMisuse Unit :=
  if e.is_current token then Except.ok () else Except.error EntryMisuse.staleHandleUsed

/-- `ArchiveEntry::pathname`: checks currentness, then reads
`archive_entry_pathname` off the loaded entry data `d`. -/
def ArchiveEntry.pathname (e : ArchiveEntry) (token : Option Nat) (d : EngineEntryData) :
    Except EntryMisuse (Option String) :=
  match e.check_current token with
  | Except.error p => Except.error p
  | Except.ok _ => Except.ok d.pathname

/-- `ArchiveEntry::size`: checks currentness, then reads
`archive_entry_size`. -/
def ArchiveEntry.size (e : ArchiveEntry) (token : Option Nat) (d : EngineEntryData) :
    Except EntryMisuse Int :=
  match e.check_current token with
  | Except.error p => Except.error p
  | Except.ok _ => Except.ok d.size

/-- `ArchiveEntry::filetype`: checks currentness, then classifies
`archive_entry_filetype`. -/
def ArchiveEntry.filetype (e : ArchiveEntry) (token : Option Nat) (d : EngineEntryData) :
    Except EntryMisuse ArchiveEntryFiletype :=
  match e.check_current token with
  | Except.error p => Except.error p
  | Except.ok _ => Except.ok (filetypeOfCode d.filetype)

/-- `ArchiveEntry::is_directory`: checks currentness, then
`matches!(self.filetype(), Directory)` (which checks again). -/
def ArchiveEntry.is_directory (e : ArchiveEntry) (token : Option Nat) (d : EngineEntryData) :
    Except EntryMisuse Bool :=
  match e.check_current token with
  | Except.error p => Except.error p
  | Except.ok _ =>
    match e.filetype token d with
    | Except.error p => Except.error p
    | Except.ok ft =>
      Except.ok (match ft with
        | ArchiveEntryFiletype.Directory => true
        | _ => false)

/-- `ArchiveEntry::is_file`: checks currentness, then
`matches!(self.filetype(), RegularFile)`. -/
def ArchiveEntry.is_file (e : ArchiveEntry) (token : Option Nat) (d : EngineEntryData) :
    Except EntryMisuse Bool :=
  match e.check_current token with
  | Except.error p => Except.error p
  | Except.ok _ =>
    match e.filetype token d with
    | Except.error p => Except.error p
    | Except.ok ft =>
      Except.ok (match ft with
        | ArchiveEntryFiletype.RegularFile => true
        | _ => false)

/-- `impl Handle for ArchiveEntry`: `handle()` returns the owning
session's engine handle, `self.reader.handle` — not the entry pointer. -/
def ArchiveEntry.handleImpl (e : ArchiveEntry) : Nat :=
  e.readerHandle

/-- `impl Read for ArchiveEntry`: checks currentness, then calls
`archive_read_data(self.reader.handle, ...)`; `dataRead` maps an engine
handle to the `ssize_t` the engine returns, and `errC`/`errM` are the
engine error state read back by `ArchiveError::from` on failure.  A
negative count becomes `io::Error::new(ErrorKind::Other, Sys(errC, errM))`;
otherwise `Ok(size as usize)`. -/
def ArchiveEntry.read (e : ArchiveEntry) (token : Option Nat) (dataRead : Nat → Int)
    (errC : Int) (errM : String) : Except EntryMisuse (Except IoError Nat) :=
  match e.check_current token with
  | Except.error p => Except.error p
  | Except.ok _ =>
    let size := dataRead e.readerHandle
    if size < 0 then
      Except.ok (Except.error ⟨IoErrorKind.other, ArchiveError.Sys errC errM⟩)
    else
      Except.ok (Except.ok size.toNat)

/-! ## ArchiveIterator -/

/-- `ArchiveIterator`: the reader (its engine handle), the entry pointer
allocated by `archive_entry_new()`, the shared
`Rc<Cell<Option<usize>>>` current-index token, and — to observe engine
interaction — the number of `archive_read_next_header` calls made so
far. -/
structure ArchiveIterator where
  readerHandle : Nat
  entry : Nat
  current : Option Nat
  calls : Nat
deriving DecidableEq, Repr

/-- `IntoIterator for ReaderHandle`: the token starts at
`Default::default()`, i.e. `None`, and no engine advance has happened. -/
def ArchiveIterator.intoIter (readerHandle entry : Nat) : ArchiveIterator :=
  ⟨readerHandle, entry, none, 0⟩

/-- `Iterator::next for ArchiveIterator`: bumps the shared token
(`None → 0`, `Some v → v + 1`) and stores it *before* calling
`archive_read_next_header`; the engine's return code for the k-th call is
`engine k`.  `ARCHIVE_OK` yields a new `ArchiveEntry` carrying the bumped
index, `ARCHIVE_EOF` yields `None`, and anything else yields
`Some(Err(Sys(errC, errM)))` (the error state read off the reader's
handle). -/
def ArchiveIterator.next (engine : Nat → Int) (errC : Int) (errM : String)
    (it : ArchiveIterator) : ArchiveIterator × Option (Except ArchiveError ArchiveEntry) :=
  let cur : Nat :=
    match it.current with
    | some v => v + 1
    | none => 0
  let res := engine it.calls
  let it' : ArchiveIterator := ⟨it.readerHandle, it.entry, some cur, it.calls + 1⟩
  (it',
    if res = ARCHIVE_OK then
      some (Except.ok ⟨it.entry, it.readerHandle, cur⟩)
    else if res = ARCHIVE_EOF then
      none
    else
      some (Except.error (ArchiveError.Sys errC errM)))

/-- The iterator state after `n` successive `next` calls. -/
def ArchiveIterator.iterStates (engine : Nat → Int) (errC : Int) (errM : String)
    (it : ArchiveIterator) : Nat → ArchiveIterator
  | 0 => it
  | Nat.succ n =>
    ((ArchiveIterator.iterStates engine errC errM it n).next engine errC errM).1

/-- The item produced by the `(k+1)`-th `next` call. -/
def ArchiveIterator.itemAt (engine : Nat → Int) (errC : Int) (errM : String)
    (it : ArchiveIterator) (k : Nat) : Option (Except ArchiveError ArchiveEntry) :=
  ((ArchiveIterator.iterStates engine errC errM it k).next engine errC errM).2

/-- The indices recorded in the member handles produced by the first `n`
`next` calls, in production order. -/
def producedIndices (engine : Nat → Int) (errC : Int) (errM : String)
    (it : ArchiveIterator) (n : Nat) : List Nat :=
  (List.range n).filterMap (fun k =>
    match ArchiveIterator.itemAt engine errC errM it k with
    | some (Except.ok e) => some e.current
    | _ => none)

/-! ## Builder -/

/-- `Builder`: the engine handle allocated by `archive_read_new()` plus
the `consumed` flag. -/
structure Builder where
  handle : Nat
  consumed : Bool
deriving DecidableEq, Repr

/-- `Builder::new` / `Default`: a fresh handle, not consumed. -/
def Builder.new (h : Nat) : Builder :=
  ⟨h, false⟩

/-- `Builder::check_consumed`: `Err(ArchiveError::Consumed)` when the
builder has already produced a session. -/
def Builder.check_consumed (b : Builder) : Except ArchiveError Unit :=
  if b.consumed then Except.error ArchiveError.Consumed else Except.ok ()

/-- `Builder::consume`: sets the flag. -/
def Builder.consume (b : Builder) : Builder :=
  ⟨b.handle, true⟩

/-- The outcome of one open call: the returned value, the builder's state
when it is dropped at the end of the call, and how many engine open calls
(`archive_read_open_filename` / `archive_read_open`) were made. -/
structure OpenOutcome where
  result : Except ArchiveError ReaderHandle
  builder : Builder
  engineOpens : Nat
deriving DecidableEq, Repr

/-- `Builder::open_file`: `check_consumed()?`, then one
`archive_read_open_filename` whose return code is `engineRes`; on
`ARCHIVE_OK` the builder is consumed and a file reader handed out; on
failure the error state `(errC, errM)` is returned and `consumed` is left
unset. -/
def Builder.open_file (engineRes : Int) (errC : Int) (errM : String) (b : Builder) :
    OpenOutcome :=
  match b.check_consumed with
  | Except.error e => ⟨Except.error e, b, 0⟩
  | Except.ok _ =>
    if engineRes = ARCHIVE_OK then
      ⟨Except.ok (ReaderHandle.new_file b.handle), b.consume, 1⟩
    else
      ⟨Except.error (ArchiveError.Sys errC errM), b, 1⟩

/-- `Builder::open_stream`: `check_consumed()?`, then boxes the pipe and
makes one `archive_read_open` call with `stream_read_callback`; on
`ARCHIVE_OK` the builder is consumed and a stream reader owning the pipe
handed out; on failure the builder is *also* consumed and the engine error
returned. -/
def Builder.open_stream (engineRes : Int) (errC : Int) (errM : String) (b : Builder) :
    OpenOutcome :=
  match b.check_consumed with
  | Except.error e => ⟨Except.error e, b, 0⟩
  | Except.ok _ =>
    if engineRes = ARCHIVE_OK then
      ⟨Except.ok (ReaderHandle.new_stream b.handle), b.consume, 1⟩
    else
      ⟨Except.error (ArchiveError.Sys errC errM), b.consume, 1⟩

/-- `Drop for Builder`: calls `archive_read_free` once iff the builder was
never consumed. -/
def Builder.dropFrees (b : Builder) : Nat :=
  if b.consumed then 0 else 1

/-- Frees performed by dropping the session produced by an open call
(none when the open failed and no session exists). -/
def resultDropFrees : Except ArchiveError ReaderHandle → Nat
  | Except.ok r => r.dropFrees
  | Except.error _ => 0

/-- Total `archive_read_free` calls over the lifecycle "fresh builder →
`open_stream` → drop builder, drop session if any". -/
def openStreamLifecycleFrees (engineRes : Int) (errC : Int) (errM : String) : Nat :=
  let o := (Builder.new 1).open_stream engineRes errC errM
  o.builder.dropFrees + resultDropFrees o.result

/-- Total `archive_read_free` calls over the lifecycle "fresh builder →
`open_file` → drop builder, drop session if any". -/
def openFileLifecycleFrees (engineRes : Int) (errC : Int) (errM : String) : Nat :=
  let o := (Builder.new 1).open_file engineRes errC errM
  o.builder.dropFrees + resultDropFrees o.result

/-- An engine response schedule that signals end-of-archive on the first
`archive_read_next_header` call and success on every later one. -/
def engineEofThenOk : Nat → Int :=
  fun k => if k = 0 then ARCHIVE_EOF else ARCHIVE_OK

/-! ## Theorems -/

/-- C1: every metadata or content operation (`pathname`, `size`,
`filetype`, `is_directory`, `is_file`, and the `std::io::Read` content
read) on an `ArchiveEntry` whose recorded index differs from the shared
current-index token fails with the distinct stale-handle failure (the
`check_current` assertion panic) before touching the entry: whatever
entry data the engine currently holds and whatever the content read would
return, no data is produced, so data of a different member is never
returned. -/
theorem c1_stale_handle_operations_fail (e : ArchiveEntry) (token : Option Nat)
    (d : EngineEntryData) (dataRead : Nat → Int) (errC : Int) (errM : String)
    (h : token ≠ some e.current) :
    e.pathname token d = Except.error EntryMisuse.staleHandleUsed ∧
    e.size token d = Except.error EntryMisuse.staleHandleUsed ∧
    e.filetype token d = Except.error EntryMisuse.staleHandleUsed ∧
    e.is_directory token d = Except.error EntryMisuse.staleHandleUsed ∧
    e.is_file token d = Except.error EntryMisuse.staleHandleUsed ∧
    e.read token dataRead errC errM = Except.error EntryMisuse.staleHandleUsed := by
  have hc : e.check_current token = Except.error EntryMisuse.staleHandleUsed := by
    simp [ArchiveEntry.check_current, ArchiveEntry.is_current, h]
  refine ⟨?_, ?_, ?_, ?_, ?_, ?_⟩ <;>
    simp [ArchiveEntry.pathname, ArchiveEntry.size, ArchiveEntry.filetype,
      ArchiveEntry.is_directory, ArchiveEntry.is_file, ArchiveEntry.read, hc]

/-- Witness for C1 at a concrete stale handle (recorded index 0, token at
1). -/
theorem c1_stale_handle_operations_fail_witness :
    (ArchiveEntry.mk 3 1 0).read (some 1) (fun _ => 7) 0 "" =
      Except.error EntryMisuse.staleHandleUsed :=
  (c1_stale_handle_operations_fail ⟨3, 1, 0⟩ (some 1) ⟨some "a", 14, 32768⟩
    (fun _ => 7) 0 "" (by decide)).2.2.2.2.2

/-- C10: the `Read` implementation for `ArchiveEntry` first checks
currentness, then reads through the owning session's engine handle
(`self.reader.handle`, which is also what its `Handle` implementation
exposes), returning `Ok(n)` for a non-negative engine count `n` and
converting every negative engine return into an `io::Error` of kind
`Other` wrapping the engine's error code and message. -/
theorem c10_read_via_session_handle (e : ArchiveEntry) (token : Option Nat)
    (dataRead : Nat → Int) (errC : Int) (errM : String)
    (h : token = some e.current) :
    e.handleImpl = e.readerHandle ∧
    (0 ≤ dataRead e.readerHandle →
      e.read token dataRead errC errM =
        Except.ok (Except.ok (dataRead e.readerHandle).toNat)) ∧
    (dataRead e.readerHandle < 0 →
      e.read token dataRead errC errM =
        Except.ok (Except.error ⟨IoErrorKind.other, ArchiveError.Sys errC errM⟩)) := by
  have hc : e.check_current token = Except.ok () := by
    simp [ArchiveEntry.check_current, ArchiveEntry.is_current, h]
  refine ⟨rfl, ?_, ?_⟩
  · intro hn
    simp [ArchiveEntry.read, hc, not_lt.mpr hn]
  · intro hn
    simp [ArchiveEntry.read, hc, hn]

/-- Witness for C10 at a concrete current handle with a successful
7-byte engine read. -/
theorem c10_read_via_session_handle_witness :
    (ArchiveEntry.mk 9 1 0).read (some 0) (fun _ => 7) 0 "" =
      Except.ok (Except.ok (Int.toNat 7)) :=
  (c10_read_via_session_handle ⟨9, 1, 0⟩ (some 0) (fun _ => 7) 0 "" rfl).2.1 (by decide)

/-- C8: on every engine-initiated pull the stream read callback hands the
engine the bridge's scratch buffer; when the wrapped source succeeds it
returns the byte count (0 signalling end of stream) and records no error,
and when the source fails it records the error's message together with its
OS error number (0 when unavailable) through `archive_set_error` and
returns -1. -/
theorem c8_stream_callback_outcomes (p : Pipe) :
    (stream_read_callback p).handedBuffer = true ∧
    (∀ n : Nat, p.read_bytes = Except.ok n →
      (stream_read_callback p).ret = (n : Int) ∧
      (stream_read_callback p).engineError = none) ∧
    (∀ e : SourceIoError, p.read_bytes = Except.error e →
      (stream_read_callback p).ret = -1 ∧
      (stream_read_callback p).engineError = some (e.osCode.getD 0, e.msg)) := by
  refine ⟨?_, ?_, ?_⟩
  · unfold stream_read_callback
    cases p.read_bytes <;> rfl
  · intro n hn
    unfold stream_read_callback
    rw [hn]
    exact ⟨rfl, rfl⟩
  · intro e he
    unfold stream_read_callback
    rw [he]
    exact ⟨rfl, rfl⟩

/-- Witness for C8 at a concrete failing source (message "boom", OS error
5). -/
theorem c8_stream_callback_outcomes_witness :
    (stream_read_callback (Pipe.new (Except.error ⟨"boom", some 5⟩))).ret = -1 ∧
    (stream_read_callback (Pipe.new (Except.error ⟨"boom", some 5⟩))).engineError =
      some (5, "boom") :=
  (c8_stream_callback_outcomes (Pipe.new (Except.error ⟨"boom", some 5⟩))).2.2
    ⟨"boom", some 5⟩ rfl

/-- C5 counterexample: `ReaderHandle::next_header` does not report
end-of-archive and decode errors as distinct results — at `ARCHIVE_EOF`
and at `ARCHIVE_FATAL` it returns the very same value (`None`), refuting
the claimed three-way distinction. -/
theorem c5_counterexample :
    ReaderHandle.next_header ARCHIVE_EOF 3 (ReaderHandle.new_file 1) =
      ReaderHandle.next_header ARCHIVE_FATAL 3 (ReaderHandle.new_file 1) := by
  decide

/-- C5 amended: `ReaderHandle::next_header` distinguishes exactly two
outcomes: it returns a metadata view (`Some`) precisely when the engine
returned 0 (`ARCHIVE_OK`), and returns `None` for every other return
code, collapsing end-of-archive and decode errors into one outcome. -/
theorem c5_amended_two_outcomes (res : Int) (ne : Nat) (r : ReaderHandle) :
    ((ReaderHandle.next_header res ne r).2 = some ne ↔ res = 0) ∧
    ((ReaderHandle.next_header res ne r).2 = none ↔ res ≠ 0) := by
  unfold ReaderHandle.next_header
  by_cases h : res = 0 <;> simp [h]

/-- Witness for C5 (amended) at the end-of-archive code. -/
theorem c5_amended_two_outcomes_witness :
    (ReaderHandle.next_header ARCHIVE_EOF 3 (ReaderHandle.new_file 1)).2 = none :=
  (c5_amended_two_outcomes ARCHIVE_EOF 3 (ReaderHandle.new_file 1)).2.mpr (by decide)

/-- C7: an open call (`open_file` or `open_stream`) on a builder that has
already produced a session fails with `ArchiveError::Consumed` with zero
engine open calls made, and returns with the builder's state unchanged. -/
theorem c7_consumed_builder_rejected (b : Builder) (engineRes : Int) (errC : Int)
    (errM : String) (h : b.consumed = true) :
    b.open_file engineRes errC errM = ⟨Except.error ArchiveError.Consumed, b, 0⟩ ∧
    b.open_stream engineRes errC errM = ⟨Except.error ArchiveError.Consumed, b, 0⟩ := by
  have hc : b.check_consumed = Except.error ArchiveError.Consumed := by
    simp [Builder.check_consumed, h]
  constructor <;> simp [Builder.open_file, Builder.open_stream, hc]

/-- Witness for C7 at a concrete consumed builder. -/
theorem c7_consumed_builder_rejected_witness :
    (Builder.mk 1 true).open_file ARCHIVE_OK 0 "" =
      ⟨Except.error ArchiveError.Consumed, ⟨1, true⟩, 0⟩ :=
  (c7_consumed_builder_rejected ⟨1, true⟩ ARCHIVE_OK 0 "" rfl).1

/-- C6: on a not-yet-consumed builder, `open_stream` marks the builder
consumed regardless of outcome: on engine success a stream reader owning
the bridge is returned, on engine failure the engine error is returned,
and in both cases the consumed flag ends up `true`. -/
theorem c6_open_stream_always_consumes (b : Builder) (engineRes : Int) (errC : Int)
    (errM : String) (h : b.consumed = false) :
    (b.open_stream engineRes errC errM).builder.consumed = true ∧
    (engineRes = ARCHIVE_OK →
      (b.open_stream engineRes errC errM).result =
        Except.ok (ReaderHandle.new_stream b.handle)) ∧
    (engineRes ≠ ARCHIVE_OK →
      (b.open_stream engineRes errC errM).result =
        Except.error (ArchiveError.Sys errC errM)) := by
  have hc : b.check_consumed = Except.ok () := by
    simp [Builder.check_consumed, h]
  by_cases he : engineRes = ARCHIVE_OK <;>
    simp [Builder.open_stream, hc, he, Builder.consume]

/-- Witness for C6 at a concrete fresh builder whose engine open fails. -/
theorem c6_open_stream_always_consumes_witness :
    ((Builder.new 1).open_stream ARCHIVE_FATAL 9 "bad").builder.consumed = true ∧
    ((Builder.new 1).open_stream ARCHIVE_FATAL 9 "bad").result =
      Except.error (ArchiveError.Sys 9 "bad") :=
  ⟨(c6_open_stream_always_consumes (Builder.new 1) ARCHIVE_FATAL 9 "bad" rfl).1,
    (c6_open_stream_always_consumes (Builder.new 1) ARCHIVE_FATAL 9 "bad" rfl).2.2
      (by decide)⟩

/-- C4: release counts over the builder/session lifecycle.  On a failed
`open_stream` the engine handle is released zero times — the failure arm
marks the builder consumed, so `Drop for Builder` skips the free and no
session exists to free it — contradicting the claimed exactly-once
release; the successful stream open and the failed `open_file` do release
it exactly once. -/
theorem c4_engine_handle_release_counts :
    openStreamLifecycleFrees ARCHIVE_FATAL 1 "open failed" = 0 ∧
    openStreamLifecycleFrees ARCHIVE_OK 0 "" = 1 ∧
    openFileLifecycleFrees ARCHIVE_FATAL 1 "open failed" = 1 := by
  decide

/-- Helper: from a fresh iterator, after `n + 1` calls the shared token is
`some n` and `n + 1` engine advances were made, whatever the engine
answered. -/
lemma iterStates_intoIter_succ (engine : Nat → Int) (errC : Int) (errM : String)
    (rh eh : Nat) (n : Nat) :
    ArchiveIterator.iterStates engine errC errM (ArchiveIterator.intoIter rh eh) (n + 1) =
      ⟨rh, eh, some n, n + 1⟩ := by
  induction n with
  | zero => rfl
  | succ n ih =>
    show ((ArchiveIterator.iterStates engine errC errM
        (ArchiveIterator.intoIter rh eh) (n + 1)).next engine errC errM).1 = _
    rw [ih]
    rfl

/-- Helper: from a fresh iterator, when the engine answers `ARCHIVE_OK` on
its `k`-th call, the `(k+1)`-th iterator call produces a member handle
recording index `k`. -/
lemma itemAt_intoIter_ok (engine : Nat → Int) (errC : Int) (errM : String)
    (rh eh : Nat) (k : Nat) (hk : engine k = ARCHIVE_OK) :
    ArchiveIterator.itemAt engine errC errM (ArchiveIterator.intoIter rh eh) k =
      some (Except.ok ⟨eh, rh, k⟩) := by
  cases k with
  | zero =>
    unfold ArchiveIterator.itemAt ArchiveIterator.iterStates
    simp [ArchiveIterator.next, ArchiveIterator.intoIter, hk]
  | succ n =>
    unfold ArchiveIterator.itemAt
    rw [iterStates_intoIter_succ]
    simp [ArchiveIterator.next, hk]

/-- Helper: a `filterMap` over `List.range n` by a function that is the
identity (wrapped in `some`) below `n` returns `List.range n`. -/
lemma filterMap_range_eq_range (g : Nat → Option Nat) (n : Nat)
    (h : ∀ k, k < n → g k = some k) :
    (List.range n).filterMap g = List.range n := by
  induction n with
  | zero => simp
  | succ n ih =>
    rw [List.range_succ, List.filterMap_append,
      ih (fun k hk => h k (Nat.lt_succ_of_lt hk))]
    simp [h n (Nat.lt_succ_self n)]

/-- C2: on one iterator the indices assigned to the produced member
handles are `0, 1, 2, …` in order: when the engine keeps yielding members
for the first `n` calls the handles record exactly `List.range n` (no
gaps, no repeats), and unconditionally the first call moves the shared
token from `none` to `some 0` and every call thereafter increases it by
exactly one (the token after `m + 1` calls is `some m`; no rewind). -/
theorem c2_member_indices_in_order (engine : Nat → Int) (errC : Int) (errM : String)
    (rh eh n : Nat) (h : ∀ k, k < n → engine k = ARCHIVE_OK) :
    producedIndices engine errC errM (ArchiveIterator.intoIter rh eh) n = List.range n ∧
    ∀ m : Nat,
      (ArchiveIterator.iterStates engine errC errM
        (ArchiveIterator.intoIter rh eh) (m + 1)).current = some m := by
  constructor
  · unfold producedIndices
    apply filterMap_range_eq_range
    intro k hk
    rw [itemAt_intoIter_ok engine errC errM rh eh k (h k hk)]
  · intro m
    rw [iterStates_intoIter_succ]

/-- Witness for C2: three successful engine advances produce handles
indexed `[0, 1, 2]` and leave the token at `some 2`. -/
theorem c2_member_indices_in_order_witness :
    producedIndices (fun _ => (0 : Int)) 0 "" (ArchiveIterator.intoIter 1 2) 3 =
      List.range 3 ∧
    (ArchiveIterator.iterStates (fun _ => (0 : Int)) 0 ""
      (ArchiveIterator.intoIter 1 2) 3).current = some 2 :=
  ⟨(c2_member_indices_in_order (fun _ => (0 : Int)) 0 "" 1 2 3 (by decide)).1,
    (c2_member_indices_in_order (fun _ => (0 : Int)) 0 "" 1 2 3 (by decide)).2 2⟩

/-- C3 counterexample: end-of-archive is not terminal for the wrapper.
With an engine that signals `ARCHIVE_EOF` on its first call and `ARCHIVE_OK`
afterwards, the first iterator call observes end (`none`), yet a second
call performs another engine cursor advance (the engine call count reaches
2) and even yields a fresh member handle — a retry is offered, refuting
the claim that no further advance against the engine is attempted. -/
theorem c3_counterexample :
    (((ArchiveIterator.intoIter 5 6).next engineEofThenOk 0 "").2 = none) ∧
    ((((ArchiveIterator.intoIter 5 6).next engineEofThenOk 0 "").1.next
        engineEofThenOk 0 "").1.calls = 2) ∧
    ((((ArchiveIterator.intoIter 5 6).next engineEofThenOk 0 "").1.next
        engineEofThenOk 0 "").2 = some (Except.ok ⟨6, 5, 1⟩)) := by
  decide

/-- C3 amended: the iterator latches no terminal state: every call to
`next`, including one made after end-of-archive or an error was observed,
performs exactly one further engine cursor advance (the engine call count
always grows by one), and each call's outcome is decided solely by the
engine's response at that position — in particular a call finding
`ARCHIVE_EOF` returns `none`, and the engine is what must keep answering
end-of-archive for exhaustion to persist. -/
theorem c3_amended_no_terminal_latch (engine : Nat → Int) (errC : Int) (errM : String)
    (it : ArchiveIterator) :
    ((it.next engine errC errM).1.calls = it.calls + 1) ∧
    (engine it.calls = ARCHIVE_EOF → (it.next engine errC errM).2 = none) := by
  refine ⟨rfl, ?_⟩
  intro h
  simp [ArchiveIterator.next, h, ARCHIVE_EOF, ARCHIVE_OK]

/-- Witness for C3 (amended) at a concrete fresh iterator whose engine
signals end-of-archive immediately. -/
theorem c3_amended_no_terminal_latch_witness :
    ((ArchiveIterator.intoIter 1 2).next (fun _ => ARCHIVE_EOF) 0 "").1.calls = 1 ∧
    ((ArchiveIterator.intoIter 1 2).next (fun _ => ARCHIVE_EOF) 0 "").2 = none :=
  ⟨(c3_amended_no_terminal_latch (fun _ => ARCHIVE_EOF) 0 ""
      (ArchiveIterator.intoIter 1 2)).1,
    (c3_amended_no_terminal_latch (fun _ => ARCHIVE_EOF) 0 ""
      (ArchiveIterator.intoIter 1 2)).2 rfl⟩

/-- C9: every call to `next` bumps the shared token before consulting the
engine, so whatever the engine answers — a fresh member, end-of-archive
(`none`), or an error — any handle that was current before the call is no
longer current after it, even though in the latter two cases no new handle
was constructed. -/
theorem c9_advance_invalidates_previous_handle (engine : Nat → Int) (errC : Int)
    (errM : String) (it : ArchiveIterator) (e : ArchiveEntry)
    (h : e.is_current it.current = true) :
    e.is_current ((it.next engine errC errM).1.current) = false := by
  have h' : it.current = some e.current := by
    simpa [ArchiveEntry.is_current] using h
  have hafter : (it.next engine errC errM).1.current = some (e.current + 1) := by
    simp [ArchiveIterator.next, h']
  rw [hafter]
  simp [ArchiveEntry.is_current]

/-- Witness for C9: a handle at index 0 that was current is invalidated by
an advance that observes end-of-archive and produces nothing. -/
theorem c9_advance_invalidates_previous_handle_witness :
    (ArchiveEntry.mk 2 1 0).is_current
      (((ArchiveIterator.mk 1 2 (some 0) 1).next (fun _ => ARCHIVE_EOF) 0 "").1.current) =
      false :=
  c9_advance_invalidates_previous_handle (fun _ => ARCHIVE_EOF) 0 ""
    ⟨1, 2, some 0, 1⟩ ⟨2, 1, 0⟩ (by decide)
